import Mathlib

/-!
# Traffic Violation Management System — aggregation engine, verified

Shallow embedding of the aggregation and registration logic of
`frontend/js/main.js` (the only executable logic in the repository; the
Flask backend is not present, and `database/database.sql` only defines the
relational schema).  Violation records are the plain objects of the mock
`violations` array; fine amounts are integers (`Int`), matching the mock
data and giving the exact fixed-point arithmetic the schema's
`DECIMAL(10,2)` column intends.  Percentage/average computations that the
code renders via `toFixed` are modelled over `ℚ` with explicit half-up
rounding.
-/

namespace TVMS

/-- A violation record, mirroring the objects stored in the `violations`
array of `main.js` (fields `violation_id`, `vehicle_number`, `owner_name`,
`type_name`, `area_name`, `violation_date`, `fine_amount`, `status`). -/
structure Violation where
  violation_id : Nat
  vehicle_number : String
  owner_name : String
  type_name : String
  area_name : String
  violation_date : String
  fine_amount : Int
  status : String
  deriving Repr, DecidableEq

/-- A violation type, mirroring the objects of the `violationTypes` array
(`type_id`, `type_name`, `base_fine`). -/
structure ViolationType where
  type_id : Nat
  type_name : String
  base_fine : Int
  deriving Repr, DecidableEq

/-- An area, mirroring the objects of the `areas` array
(`area_id`, `area_name`, `city`). -/
structure Area where
  area_id : Nat
  area_name : String
  city : String
  deriving Repr, DecidableEq

/-- A payment entity.  The frontend code keeps no payment collection; this
shape comes from the schema's `payments` table (`violation_id`,
`amount_paid`, `payment_method`, `payment_date`), so that the claim about
`markPaid` appending a Payment can be stated against the state. -/
structure Payment where
  violation_id : Nat
  amount_paid : Int
  payment_method : String
  payment_date : String
  deriving Repr, DecidableEq

/-- The mutable frontend state touched by the operations: the global
`violations` array, plus the payment collection (which `main.js` never
declares nor writes — modelled so its non-update is visible). -/
structure AppState where
  violations : List Violation
  payments : List Payment
  deriving Repr, DecidableEq

/-! ## Dashboard aggregation (`updateDashboard`, lines 332–346) -/

/-- `violations.reduce((sum, v) => sum + v.fine_amount, 0)`. -/
def totalFineAmount (vs : List Violation) : Int :=
  vs.foldl (fun sum v => sum + v.fine_amount) 0

/-- `violations.filter(v => v.status === 'paid').reduce((sum, v) => sum + v.fine_amount, 0)`. -/
def collectedAmount (vs : List Violation) : Int :=
  (vs.filter (fun v => v.status == "paid")).foldl (fun sum v => sum + v.fine_amount) 0

/-- `const pending = total - collected`. -/
def pendingAmount (vs : List Violation) : Int :=
  totalFineAmount vs - collectedAmount vs

/-! ## Analytics statistics (`updateAnalyticsStats`, lines 571–584) -/

/-- Half-up rounding to one decimal digit, the effect of `.toFixed(1)` on a
non-negative value. -/
def round1 (q : ℚ) : ℚ := (Int.floor (q * 10 + 1/2) : ℚ) / 10

/-- Half-up rounding to two decimal digits, the effect of `.toFixed(2)` on a
non-negative value. -/
def round2 (q : ℚ) : ℚ := (Int.floor (q * 100 + 1/2) : ℚ) / 100

/-- `violations.filter(v => v.status === 'paid').length`. -/
def paidCount (vs : List Violation) : Nat :=
  (vs.filter (fun v => v.status == "paid")).length

/-- `violations.filter(v => v.status === 'unpaid').length`. -/
def unpaidCount (vs : List Violation) : Nat :=
  (vs.filter (fun v => v.status == "unpaid")).length

/-- `total > 0 ? ((collected / total) * 100).toFixed(1) : 0`. -/
def collectionRate (vs : List Violation) : ℚ :=
  if totalFineAmount vs > 0 then
    round1 (((collectedAmount vs : ℚ) / (totalFineAmount vs : ℚ)) * 100)
  else 0

/-- `violations.length > 0 ? (total / violations.length).toFixed(2) : 0`. -/
def avgFine (vs : List Violation) : ℚ :=
  if vs.length > 0 then
    round2 ((totalFineAmount vs : ℚ) / (vs.length : ℚ))
  else 0

/-! ## Violation registration (`registerViolation`, lines 380–424, and
`validateViolationForm`, lines 429–451) -/

/-- The form data gathered at submission (lines 384–391).  Each text field
is the raw string of the input (`getValue` yields `""` when empty, and JS
truthiness of a string is non-emptiness); `fine_amount` is the numeric
value of the `fineAmount` input, i.e. the result of the code's
`parseFloat(formData.fine_amount)`. -/
structure FormData where
  vehicle_number : String
  type_id : String
  area_id : String
  violation_date : String
  fine_amount : Int
  notes : String
  deriving Repr, DecidableEq

/-- `validateViolationForm` (lines 429–451): four truthiness checks, each
showing one alert and returning `false` at the FIRST failure; `some msg`
models the `showAlert(msg, 'error', 'registerAlert'); return false` path,
`none` models `return true`. -/
def validateViolationForm (d : FormData) : Option String :=
  if d.vehicle_number == "" then some "Please enter vehicle number"
  else if d.type_id == "" then some "Please select violation type"
  else if d.area_id == "" then some "Please select area"
  else if d.violation_date == "" then some "Please select date and time"
  else none

/-- The alert messages actually emitted for an invalid submission: the code
shows at most one (the first failing check aborts validation). -/
def reportedErrors (d : FormData) : List String :=
  (validateViolationForm d).toList

/-- Spec-side enumeration, for comparison: the list of ALL required form
fields that are missing in `d`, in source order.  The spec's
`ValidationError` is required to carry one entry per violated field. -/
def violatedFields (d : FormData) : List String :=
  (if d.vehicle_number == "" then ["vehicle_number"] else []) ++
  (if d.type_id == "" then ["type_id"] else []) ++
  (if d.area_id == "" then ["area_id"] else []) ++
  (if d.violation_date == "" then ["violation_date"] else [])

/-- The single alert message the code emits for a given missing field. -/
def msgFor (field : String) : String :=
  if field == "vehicle_number" then "Please enter vehicle number"
  else if field == "type_id" then "Please select violation type"
  else if field == "area_id" then "Please select area"
  else "Please select date and time"

/-- `getViolationTypeName` (lines 772–775): `find(t => t.type_id == typeId)`
with JS loose equality between the numeric `type_id` and the form's string
value, modelled by comparing the decimal rendering. -/
def getViolationTypeName (types : List ViolationType) (typeId : String) : String :=
  match types.find? (fun t => toString t.type_id == typeId) with
  | some t => t.type_name
  | none => "Unknown"

/-- `getAreaName` (lines 780–783). -/
def getAreaName (areas : List Area) (areaId : String) : String :=
  match areas.find? (fun a => toString a.area_id == areaId) with
  | some a => a.area_name ++ ", " ++ a.city
  | none => "Unknown"

/-- The `change` listener installed by `populateViolationTypesDropdown`
(lines 263–269): selecting a type writes that type's `base_fine`
(`selectedOption.dataset.fine`) into the `fineAmount` input.  `some f`
means the selected option carries base fine `f`. -/
def autofillFine (types : List ViolationType) (typeIdStr : String) : Option Int :=
  (types.find? (fun t => toString t.type_id == typeIdStr)).map (fun t => t.base_fine)

/-- JS `String.prototype.replace('T', ' ')` replaces only the FIRST
occurrence. -/
def replaceFirstT : List Char → List Char
  | [] => []
  | c :: cs => if c == 'T' then ' ' :: cs else c :: replaceFirstT cs

/-- `formData.violation_date.replace('T', ' ')`. -/
def jsReplaceT (s : String) : String := String.mk (replaceFirstT s.data)

/-- `vehicle_number.toUpperCase()` on the ASCII registration strings. -/
def jsToUpper (s : String) : String := s.map Char.toUpper

/-- Outcome of a user-facing operation.  `success`/`error` are the two
`showAlert` kinds the code emits; `noAction` is the path where the user
cancels the `confirm` dialog; `invalidState` is the spec's
`InvalidStateError`, which no code path ever produces — it is present so
the spec's requirement is expressible. -/
inductive Outcome where
  | success (msg : String)
  | error (msg : String)
  | noAction
  | invalidState
  deriving Repr, DecidableEq

/-- The record built by the mock-submission block of `registerViolation`
(lines 402–411). -/
def newViolationOf (st : AppState) (types : List ViolationType)
    (areas : List Area) (d : FormData) : Violation :=
  { violation_id := st.violations.length + 1
    vehicle_number := jsToUpper d.vehicle_number
    owner_name := "Unknown"
    type_name := getViolationTypeName types d.type_id
    area_name := getAreaName areas d.area_id
    violation_date := jsReplaceT d.violation_date
    fine_amount := d.fine_amount
    status := "unpaid" }

/-- `registerViolation` (lines 380–424): validate, then build the new
record and `violations.unshift(newViolation)`. -/
def registerViolation (st : AppState) (types : List ViolationType)
    (areas : List Area) (d : FormData) : AppState × Outcome :=
  match validateViolationForm d with
  | some msg => (st, Outcome.error msg)
  | none =>
      ({ st with violations := newViolationOf st types areas d :: st.violations },
       Outcome.success "Violation registered successfully!")

/-! ## Marking a violation paid (`markAsPaid`, lines 496–515) -/

/-- The effect of `violation.status = 'paid'` through the reference
returned by `violations.find(...)`: the FIRST record with the given id is
updated in place; later duplicates (if any) are untouched. -/
def setFirstPaid : List Violation → Nat → List Violation
  | [], _ => []
  | v :: vs, i =>
      if v.violation_id == i then { v with status := "paid" } :: vs
      else v :: setFirstPaid vs i

/-- `markAsPaid(violationId)` (lines 496–515): find the record; alert
`'Violation not found'` if absent; otherwise, when the user confirms,
assign `status = 'paid'` unconditionally — there is NO check of the
current status, and no Payment entity is created anywhere. -/
def markAsPaid (st : AppState) (violationId : Nat) (confirmed : Bool) :
    AppState × Outcome :=
  match st.violations.find? (fun v => v.violation_id == violationId) with
  | none => (st, Outcome.error "Violation not found")
  | some _ =>
      if confirmed then
        ({ st with violations := setFirstPaid st.violations violationId },
         Outcome.success "Payment recorded successfully!")
      else (st, Outcome.noAction)

/-! ## Group-by charts (`displayAreaChart` lines 589–613,
`displayTypeChart` lines 618–642)

The JS accumulates counts in a plain object (`areaStats[k] = (areaStats[k] || 0) + 1`)
and renders `Object.entries`.  For non-integer-like string keys (area and
type names), ECMAScript guarantees `Object.entries` yields properties in
insertion order of first assignment, which `bump`/`groupCounts` model by
appending unseen keys at the end. -/

/-- One step of `stats[k] = (stats[k] || 0) + 1` on the entry list. -/
def bump : List (String × Nat) → String → List (String × Nat)
  | [], k => [(k, 1)]
  | (k0, c) :: rest, k =>
      if k0 == k then (k0, c + 1) :: rest else (k0, c) :: bump rest k

/-- The entry list of the stats object after the `forEach` accumulation. -/
def groupCounts (keys : List String) : List (String × Nat) :=
  keys.foldl bump []

/-- The count the stats object currently holds for key `k` (`stats[k] || 0`). -/
def cntOf (acc : List (String × Nat)) (k : String) : Nat :=
  ((acc.find? (fun p => p.1 == k)).map Prod.snd).getD 0

/-- `(count / violations.length * 100).toFixed(1)` over exact rationals. -/
def chartPercent (n : Nat) (count : Nat) : ℚ :=
  round1 ((count : ℚ) / (n : ℚ) * 100)

/-- The rendered entries of a group-by chart over an arbitrary key: the
`Object.entries` loop emitting key, count and percentage (the common body
of `displayAreaChart` and `displayTypeChart`). -/
def chartOf (keyF : Violation → String) (vs : List Violation) :
    List (String × Nat × ℚ) :=
  (groupCounts (vs.map keyF)).map (fun p => (p.1, p.2, chartPercent vs.length p.2))

/-- The rendered entries of the by-area chart: key, count, percentage. -/
def areaChart (vs : List Violation) : List (String × Nat × ℚ) :=
  chartOf (fun v => v.area_name) vs

/-- The rendered entries of the by-type chart: key, count, percentage. -/
def typeChart (vs : List Violation) : List (String × Nat × ℚ) :=
  chartOf (fun v => v.type_name) vs

/-- Spec-side order: the keys of a list in order of first occurrence,
defined by direct left recursion (independently of the `bump` fold). -/
def firstOccurrences : List String → List String
  | [] => []
  | k :: ks => k :: (firstOccurrences ks).filter (fun k2 => k2 ≠ k)

/-! ## State-passing forms of the read-only operations

Each aggregation entry point of `main.js` reads the global `violations`
array through `filter`/`reduce`/`forEach` (none of which mutates) and
writes only to the DOM; the state-passing forms below return the state
they were given together with the computed figures, mirroring that the
code contains no assignment to any record field or to the array on these
paths. -/

/-- The figures `updateDashboard` (lines 332–346) computes and renders. -/
structure DashboardStats where
  count : Nat
  total : Int
  collected : Int
  pending : Int
  deriving Repr, DecidableEq

/-- `updateDashboard` as a state transformer. -/
def updateDashboardS (st : AppState) : AppState × DashboardStats :=
  (st, { count := st.violations.length
         total := totalFineAmount st.violations
         collected := collectedAmount st.violations
         pending := pendingAmount st.violations })

/-- The figures `updateAnalyticsStats` (lines 571–584) computes. -/
structure AnalyticsStats where
  paid : Nat
  unpaid : Nat
  rate : ℚ
  avg : ℚ
  deriving Repr, DecidableEq

/-- `updateAnalyticsStats` as a state transformer. -/
def updateAnalyticsStatsS (st : AppState) : AppState × AnalyticsStats :=
  (st, { paid := paidCount st.violations
         unpaid := unpaidCount st.violations
         rate := collectionRate st.violations
         avg := avgFine st.violations })

/-- `displayAreaChart` as a state transformer. -/
def displayAreaChartS (st : AppState) : AppState × List (String × Nat × ℚ) :=
  (st, areaChart st.violations)

/-- `displayTypeChart` as a state transformer. -/
def displayTypeChartS (st : AppState) : AppState × List (String × Nat × ℚ) :=
  (st, typeChart st.violations)

/-! ## Concrete master data and records (mock data of `main.js`) -/

/-- The mock `violationTypes` array (lines 162–170). -/
def mockTypes : List ViolationType :=
  [⟨1, "Speeding", 500⟩, ⟨2, "Red Light Violation", 1000⟩,
   ⟨3, "No Helmet", 300⟩, ⟨4, "Wrong Parking", 200⟩,
   ⟨5, "DUI", 5000⟩, ⟨6, "No Seat Belt", 500⟩,
   ⟨7, "Mobile Phone Usage", 750⟩]

/-- The mock `areas` array (lines 185–191). -/
def mockAreas : List Area :=
  [⟨1, "MG Road", "Bangalore"⟩, ⟨2, "Connaught Place", "Delhi"⟩,
   ⟨3, "Marine Drive", "Mumbai"⟩, ⟨4, "Anna Salai", "Chennai"⟩,
   ⟨5, "Park Street", "Kolkata"⟩]

/-- Mock violation #1 (paid) from lines 207–216. -/
def mockV1 : Violation :=
  { violation_id := 1, vehicle_number := "KA01AB1234", owner_name := "John Doe"
    type_name := "Speeding", area_name := "MG Road"
    violation_date := "2025-01-15 10:30", fine_amount := 500, status := "paid" }

/-- Mock violation #2 (unpaid) from lines 218–227. -/
def mockV2 : Violation :=
  { violation_id := 2, vehicle_number := "DL02CD5678", owner_name := "Jane Smith"
    type_name := "Red Light Violation", area_name := "Connaught Place"
    violation_date := "2025-01-14 14:45", fine_amount := 1000, status := "unpaid" }

/-- Mock violation #3 (paid) from lines 229–236. -/
def mockV3 : Violation :=
  { violation_id := 3, vehicle_number := "MH03EF9012", owner_name := "Mike Brown"
    type_name := "No Helmet", area_name := "Marine Drive"
    violation_date := "2025-01-13 09:15", fine_amount := 300, status := "paid" }

/-- A disputed record (status from the schema's enum), for exercising the
status-breakdown exclusion. -/
def disputedV : Violation :=
  { violation_id := 4, vehicle_number := "TN04GH3456", owner_name := "Asha Rao"
    type_name := "Wrong Parking", area_name := "Anna Salai"
    violation_date := "2025-01-12 08:00", fine_amount := 200, status := "disputed" }

/-- The state right after `loadViolations` (no payment collection exists in
the code; modelled empty). -/
def mockState : AppState := ⟨[mockV1, mockV2, mockV3], []⟩

/-! # Theorems -/

/-! ## Basic characterisations of the fold-based sums -/

lemma foldl_add_eq (f : Violation → Int) (l : List Violation) (a : Int) :
    l.foldl (fun sum v => sum + f v) a = a + (l.map f).sum := by
  induction l generalizing a with
  | nil => simp
  | cons x xs ih => simp [ih]; ring

lemma totalFineAmount_eq_sum (vs : List Violation) :
    totalFineAmount vs = (vs.map (fun v => v.fine_amount)).sum := by
  simp [totalFineAmount, foldl_add_eq]

lemma collectedAmount_eq_sum (vs : List Violation) :
    collectedAmount vs
      = ((vs.filter (fun v => v.status == "paid")).map (fun v => v.fine_amount)).sum := by
  simp [collectedAmount, foldl_add_eq]

/-- C2: for every collection, `totalFineAmount` is the sum of fine amounts
over all records, `collectedAmount` the sum over the `paid` records,
`pendingAmount` their difference, and `collectedAmount + pendingAmount =
totalFineAmount` holds exactly (integer arithmetic, no rounding). -/
theorem dashboard_totals_correct (vs : List Violation) :
    totalFineAmount vs = (vs.map (fun v => v.fine_amount)).sum ∧
    collectedAmount vs
      = ((vs.filter (fun v => v.status == "paid")).map (fun v => v.fine_amount)).sum ∧
    pendingAmount vs = totalFineAmount vs - collectedAmount vs ∧
    collectedAmount vs + pendingAmount vs = totalFineAmount vs := by
  refine ⟨totalFineAmount_eq_sum vs, collectedAmount_eq_sum vs, rfl, ?_⟩
  simp [pendingAmount]

/-- C4: on the empty collection the dashboard count and the three amounts
are all zero, and the guarded rate/average computations return 0 (their
divisions are behind `total > 0` / `length > 0` tests, so nothing is
evaluated on a zero divisor and no error can be raised). -/
theorem empty_collection_all_zero :
    ([] : List Violation).length = 0 ∧
    totalFineAmount [] = 0 ∧ collectedAmount [] = 0 ∧ pendingAmount [] = 0 ∧
    collectionRate [] = 0 ∧ avgFine [] = 0 := by
  refine ⟨rfl, rfl, rfl, rfl, ?_, ?_⟩ <;>
    norm_num [collectionRate, avgFine, totalFineAmount, collectedAmount, pendingAmount]

lemma status_partition (vs : List Violation) :
    paidCount vs + unpaidCount vs
      + (vs.filter (fun v => !(v.status == "paid") && !(v.status == "unpaid"))).length
      = vs.length := by
  induction vs with
  | nil => rfl
  | cons v vs ih =>
      by_cases h1 : v.status = "paid"
      · simp only [paidCount, unpaidCount, List.filter_cons, h1] at ih ⊢
        simp at ih ⊢
        omega
      · by_cases h2 : v.status = "unpaid"
        · simp only [paidCount, unpaidCount, List.filter_cons, h2] at ih ⊢
          simp [h1, h2] at ih ⊢
          omega
        · simp only [paidCount, unpaidCount, List.filter_cons] at ih ⊢
          simp [h1, h2] at ih ⊢
          omega

/-- C7: `paidCount` counts exactly the `paid` records and `unpaidCount`
exactly the `unpaid` ones; records with any other status (e.g. `disputed`)
are counted by neither, so the two counters together can fall short of the
record count — witnessed by a singleton `disputed` collection. -/
theorem status_breakdown_correct :
    (∀ vs : List Violation,
        paidCount vs = vs.countP (fun v => v.status == "paid") ∧
        unpaidCount vs = vs.countP (fun v => v.status == "unpaid") ∧
        paidCount vs + unpaidCount vs
          + (vs.filter (fun v => !(v.status == "paid") && !(v.status == "unpaid"))).length
          = vs.length) ∧
    paidCount [disputedV] + unpaidCount [disputedV] < [disputedV].length := by
  constructor
  · intro vs
    refine ⟨?_, ?_, status_partition vs⟩ <;>
      simp [paidCount, unpaidCount, List.countP_eq_length_filter]
  · decide

/-- C9: the aggregation entry points (dashboard totals; analytics counts,
rate and average; by-area and by-type charts) return the state unchanged —
every record, and the order and length of the collection, are as before. -/
theorem aggregation_ops_preserve_state (st : AppState) :
    (updateDashboardS st).1 = st ∧
    (updateAnalyticsStatsS st).1 = st ∧
    (displayAreaChartS st).1 = st ∧
    (displayTypeChartS st).1 = st :=
  ⟨rfl, rfl, rfl, rfl⟩

/-! ## markAsPaid -/

lemma update_status_paid_eq (v : Violation) (h : v.status = "paid") :
    { v with status := "paid" } = v := by
  cases v
  simp_all

lemma setFirstPaid_noop (i : Nat) :
    ∀ (l : List Violation) (v : Violation),
      l.find? (fun w => w.violation_id == i) = some v → v.status = "paid" →
      setFirstPaid l i = l := by
  intro l
  induction l with
  | nil => intro v h hp; simp at h
  | cons w ws ih =>
      intro v hfind hpaid
      by_cases hw : w.violation_id = i
      · rw [List.find?_cons_of_pos _ (by simp [hw])] at hfind
        have hv : w = v := by injection hfind
        subst hv
        simp only [setFirstPaid, if_pos (by simp [hw] : (w.violation_id == i) = true)]
        rw [update_status_paid_eq w hpaid]
      · rw [List.find?_cons_of_neg _ (by simp [hw])] at hfind
        simp [setFirstPaid, hw, ih v hfind hpaid]

/-- C1 counterexample: calling `markAsPaid` (confirmed) on the mock record
that is already `paid` does NOT fail with `InvalidStateError` — the code
has no status check at all and reports payment success. -/
theorem markAsPaid_on_paid_cex :
    (markAsPaid ⟨[mockV1], []⟩ 1 true).2
        = Outcome.success "Payment recorded successfully!" ∧
    (markAsPaid ⟨[mockV1], []⟩ 1 true).2 ≠ Outcome.invalidState ∧
    (markAsPaid ⟨[mockV1], []⟩ 1 true).1 = ⟨[mockV1], []⟩ := by
  refine ⟨rfl, by decide, rfl⟩

/-- C1 (amended): `markAsPaid` on a record already `paid` raises no error;
it re-assigns `status = 'paid'` unconditionally and reports success, so
the record — and the whole state — is unmodified. -/
theorem markAsPaid_on_paid_noop (st : AppState) (i : Nat) (v : Violation)
    (hfind : st.violations.find? (fun w => w.violation_id == i) = some v)
    (hpaid : v.status = "paid") :
    markAsPaid st i true = (st, Outcome.success "Payment recorded successfully!") := by
  simp [markAsPaid, hfind, setFirstPaid_noop i st.violations v hfind hpaid]

/-- C1 witness: the amended theorem applied to the already-paid mock
record #1. -/
theorem markAsPaid_on_paid_noop_witness :
    markAsPaid ⟨[mockV1], []⟩ 1 true
      = (⟨[mockV1], []⟩, Outcome.success "Payment recorded successfully!") :=
  markAsPaid_on_paid_noop ⟨[mockV1], []⟩ 1 mockV1 rfl rfl

lemma find?_setFirstPaid (i : Nat) :
    ∀ (l : List Violation) (v : Violation),
      l.find? (fun w => w.violation_id == i) = some v →
      (setFirstPaid l i).find? (fun w => w.violation_id == i)
        = some { v with status := "paid" } := by
  intro l
  induction l with
  | nil => intro v h; simp at h
  | cons w ws ih =>
      intro v hfind
      by_cases hw : w.violation_id = i
      · rw [List.find?_cons_of_pos _ (by simp [hw])] at hfind
        have hv : w = v := by injection hfind
        subst hv
        simp only [setFirstPaid, if_pos (by simp [hw] : (w.violation_id == i) = true)]
        exact List.find?_cons_of_pos _ (by simp [hw])
      · rw [List.find?_cons_of_neg _ (by simp [hw])] at hfind
        simp only [setFirstPaid, if_neg (by simp [hw] : ¬ (w.violation_id == i) = true)]
        rw [List.find?_cons_of_neg _ (by simp [hw])]
        exact ih v hfind

/-- C6 counterexample: `markAsPaid` (confirmed) on the `unpaid` mock record
does transition it to `paid`, but appends NO Payment entity — the payment
collection is untouched (the code never creates one), not extended by
exactly one entry. -/
theorem markAsPaid_appends_no_payment_cex :
    ((markAsPaid mockState 2 true).1).violations.find? (fun w => w.violation_id == 2)
        = some { mockV2 with status := "paid" } ∧
    ((markAsPaid mockState 2 true).1).payments.length = 0 ∧
    mockState.payments.length = 0 := by
  refine ⟨rfl, rfl, rfl⟩

/-- C6 (amended): on a record whose status is `unpaid` or `disputed`,
`markAsPaid` (confirmed) reports success and transitions that record's
status to `paid`, but appends no Payment entity: the payment collection is
exactly as before. -/
theorem markAsPaid_transitions_no_payment (st : AppState) (i : Nat) (v : Violation)
    (hfind : st.violations.find? (fun w => w.violation_id == i) = some v)
    (_hstatus : v.status = "unpaid" ∨ v.status = "disputed") :
    (markAsPaid st i true).2 = Outcome.success "Payment recorded successfully!" ∧
    ((markAsPaid st i true).1).violations.find? (fun w => w.violation_id == i)
      = some { v with status := "paid" } ∧
    ((markAsPaid st i true).1).payments = st.payments := by
  refine ⟨?_, ?_, ?_⟩ <;> simp [markAsPaid, hfind]
  exact find?_setFirstPaid i st.violations v hfind

/-- C6 witness: the amended theorem applied to the `unpaid` mock record #2
in the mock state. -/
theorem markAsPaid_transitions_no_payment_witness :
    (markAsPaid mockState 2 true).2 = Outcome.success "Payment recorded successfully!" ∧
    ((markAsPaid mockState 2 true).1).violations.find? (fun w => w.violation_id == 2)
      = some { mockV2 with status := "paid" } ∧
    ((markAsPaid mockState 2 true).1).payments = mockState.payments :=
  markAsPaid_transitions_no_payment mockState 2 mockV2 rfl (Or.inl rfl)

/-! ## Validation and registration -/

/-- A submission with two missing fields (vehicle number and type). -/
def missingTwoForm : FormData :=
  { vehicle_number := "", type_id := "", area_id := "1"
    violation_date := "2025-01-15T10:30", fine_amount := 500, notes := "" }

/-- C3 counterexample: on a form missing both the vehicle number and the
violation type, two field constraints are violated but the code emits a
single alert (for the first check only) and stops — it does not enumerate
every violated constraint. -/
theorem validation_first_error_only_cex :
    (violatedFields missingTwoForm).length = 2 ∧
    (reportedErrors missingTwoForm).length = 1 ∧
    reportedErrors missingTwoForm = ["Please enter vehicle number"] :=
  ⟨rfl, rfl, rfl⟩

/-- C3 (amended): on any input with at least one missing required field,
validation fails, but reports exactly ONE error — the message for the
first violated field in source check order (vehicle number, type, area,
date) — rather than one entry per violated field. -/
theorem validation_reports_first_violation (d : FormData)
    (h : violatedFields d ≠ []) :
    (reportedErrors d).length = 1 ∧
    reportedErrors d = [msgFor (violatedFields d).headI] := by
  by_cases h1 : d.vehicle_number = ""
  · simp [reportedErrors, validateViolationForm, violatedFields, msgFor, h1]
  · by_cases h2 : d.type_id = ""
    · simp [reportedErrors, validateViolationForm, violatedFields, msgFor, h1, h2]
    · by_cases h3 : d.area_id = ""
      · simp [reportedErrors, validateViolationForm, violatedFields, msgFor, h1, h2, h3]
      · by_cases h4 : d.violation_date = ""
        · simp [reportedErrors, validateViolationForm, violatedFields, msgFor, h1, h2, h3, h4]
        · exact absurd (by simp [violatedFields, h1, h2, h3, h4]) h

/-- C3 witness: the amended theorem applied to the doubly-missing form. -/
theorem validation_reports_first_violation_witness :
    (reportedErrors missingTwoForm).length = 1 ∧
    reportedErrors missingTwoForm = [msgFor (violatedFields missingTwoForm).headI] :=
  validation_reports_first_violation missingTwoForm (by decide)

/-- C5: with all four required fields present and the type reference
resolving to a master-data entry `t`, and the fine field holding the
auto-filled base fine of the selected type (no caller override),
registration succeeds, the new record's status is `unpaid`, its fine
amount is `t.base_fine`, and its type name is `t`'s name. -/
theorem registerViolation_success (st : AppState) (types : List ViolationType)
    (areas : List Area) (d : FormData) (t : ViolationType)
    (h1 : d.vehicle_number ≠ "") (h2 : d.type_id ≠ "") (h3 : d.area_id ≠ "")
    (h4 : d.violation_date ≠ "")
    (ht : types.find? (fun ty => toString ty.type_id == d.type_id) = some t)
    (_ha : (areas.find? (fun ar => toString ar.area_id == d.area_id)).isSome = true)
    (hfine : autofillFine types d.type_id = some d.fine_amount) :
    (registerViolation st types areas d).2
        = Outcome.success "Violation registered successfully!" ∧
    (registerViolation st types areas d).1.violations
        = newViolationOf st types areas d :: st.violations ∧
    (newViolationOf st types areas d).status = "unpaid" ∧
    (newViolationOf st types areas d).fine_amount = t.base_fine ∧
    (newViolationOf st types areas d).type_name = t.type_name := by
  have hval : validateViolationForm d = none := by
    simp [validateViolationForm, h1, h2, h3, h4]
  have hf : t.base_fine = d.fine_amount := by
    rw [autofillFine, ht] at hfine
    simpa using hfine
  refine ⟨?_, ?_, rfl, ?_, ?_⟩
  · simp [registerViolation, hval]
  · simp [registerViolation, hval]
  · simp [newViolationOf, hf]
  · simp [newViolationOf, getViolationTypeName, ht]

/-- The form filled for the end-to-end registration scenario: red-light
violation (type 2) in area 1, fine auto-filled from the type. -/
def scenarioForm : FormData :=
  { vehicle_number := "ka05xy9999", type_id := "2", area_id := "1"
    violation_date := "2025-01-16T12:00", fine_amount := 1000, notes := "" }

/-- C5 witness: registering the scenario form against the mock master data
succeeds with status `unpaid` and the type's base fine of 1000. -/
theorem registerViolation_success_witness :
    (registerViolation mockState mockTypes mockAreas scenarioForm).2
        = Outcome.success "Violation registered successfully!" ∧
    (registerViolation mockState mockTypes mockAreas scenarioForm).1.violations
        = newViolationOf mockState mockTypes mockAreas scenarioForm :: mockState.violations ∧
    (newViolationOf mockState mockTypes mockAreas scenarioForm).status = "unpaid" ∧
    (newViolationOf mockState mockTypes mockAreas scenarioForm).fine_amount
        = (⟨2, "Red Light Violation", 1000⟩ : ViolationType).base_fine ∧
    (newViolationOf mockState mockTypes mockAreas scenarioForm).type_name
        = (⟨2, "Red Light Violation", 1000⟩ : ViolationType).type_name :=
  registerViolation_success mockState mockTypes mockAreas scenarioForm
    ⟨2, "Red Light Violation", 1000⟩
    (by decide) (by decide) (by decide) (by decide) rfl rfl rfl

/-- C10: for every successful registration (validation passes), the new
record is pushed at the FRONT of the collection (`unshift`), ahead of all
previously existing records, and its stored vehicle number is the
caller-supplied one converted to upper case. -/
theorem registerViolation_uppercase_front (st : AppState) (types : List ViolationType)
    (areas : List Area) (d : FormData)
    (hval : validateViolationForm d = none) :
    ((registerViolation st types areas d).1).violations
        = newViolationOf st types areas d :: st.violations ∧
    (newViolationOf st types areas d).vehicle_number = jsToUpper d.vehicle_number ∧
    ((registerViolation st types areas d).1).violations.head?
        = some (newViolationOf st types areas d) := by
  refine ⟨?_, rfl, ?_⟩ <;> simp [registerViolation, hval]

/-! ## Group-by charts -/

lemma groupCounts_append (ks : List String) (k : String) :
    groupCounts (ks ++ [k]) = bump (groupCounts ks) k := by
  simp [groupCounts, List.foldl_append]

lemma bump_map_fst (k : String) :
    ∀ acc : List (String × Nat),
      (bump acc k).map Prod.fst
        = if k ∈ acc.map Prod.fst then acc.map Prod.fst
          else acc.map Prod.fst ++ [k] := by
  intro acc
  induction acc with
  | nil => simp [bump]
  | cons p rest ih =>
      obtain ⟨k0, c⟩ := p
      by_cases hk : k0 = k
      · simp [bump, hk]
      · have hk2 : ¬ k = k0 := fun h => hk h.symm
        simp only [bump, if_neg (by simp [hk] : ¬ (k0 == k) = true),
          List.map_cons, ih, List.mem_cons, hk2, false_or]
        by_cases hmem : k ∈ rest.map Prod.fst <;> simp [hmem]

lemma mem_firstOccurrences (k : String) :
    ∀ ks : List String, k ∈ firstOccurrences ks ↔ k ∈ ks := by
  intro ks
  induction ks with
  | nil => simp [firstOccurrences]
  | cons k0 ks ih =>
      simp only [firstOccurrences, List.mem_cons, List.mem_filter,
        decide_eq_true_eq]
      constructor
      · rintro (h | ⟨h, _⟩)
        · exact Or.inl h
        · exact Or.inr (ih.mp h)
      · rintro (h | h)
        · exact Or.inl h
        · by_cases hk : k = k0
          · exact Or.inl hk
          · exact Or.inr ⟨ih.mpr h, hk⟩

lemma firstOccurrences_append (k : String) :
    ∀ ks : List String,
      firstOccurrences (ks ++ [k])
        = if k ∈ firstOccurrences ks then firstOccurrences ks
          else firstOccurrences ks ++ [k] := by
  intro ks
  induction ks with
  | nil => simp [firstOccurrences]
  | cons k0 ks ih =>
      have step : firstOccurrences ((k0 :: ks) ++ [k])
          = k0 :: (firstOccurrences (ks ++ [k])).filter (fun k2 => k2 ≠ k0) := rfl
      rw [step, ih]
      by_cases hmem : k ∈ firstOccurrences ks
      · rw [if_pos hmem]
        have hcond : k ∈ firstOccurrences (k0 :: ks) := by
          rw [mem_firstOccurrences]
          exact List.mem_cons_of_mem _ ((mem_firstOccurrences k ks).mp hmem)
        rw [if_pos hcond]
        rfl
      · rw [if_neg hmem]
        by_cases hk : k = k0
        · have hcond : k ∈ firstOccurrences (k0 :: ks) := by
            rw [mem_firstOccurrences]
            exact hk ▸ List.mem_cons_self _ _
          rw [if_pos hcond]
          show k0 :: (firstOccurrences ks ++ [k]).filter (fun k2 => k2 ≠ k0)
              = firstOccurrences (k0 :: ks)
          rw [List.filter_append]
          have hsing : ([k].filter (fun k2 => k2 ≠ k0)) = [] := by simp [hk]
          rw [hsing, List.append_nil]
          rfl
        · have hcond : ¬ k ∈ firstOccurrences (k0 :: ks) := by
            rw [mem_firstOccurrences]
            intro hc
            rcases List.mem_cons.mp hc with h | h
            · exact hk h
            · exact hmem ((mem_firstOccurrences k ks).mpr h)
          rw [if_neg hcond]
          show k0 :: (firstOccurrences ks ++ [k]).filter (fun k2 => k2 ≠ k0)
              = firstOccurrences (k0 :: ks) ++ [k]
          rw [List.filter_append]
          have hsing : ([k].filter (fun k2 => k2 ≠ k0)) = [k] := by simp [hk]
          rw [hsing]
          rfl

lemma groupCounts_fst_eq (ks : List String) :
    (groupCounts ks).map Prod.fst = firstOccurrences ks := by
  induction ks using List.reverseRecOn with
  | nil => rfl
  | append_singleton ks k ih =>
      rw [groupCounts_append, bump_map_fst, ih, firstOccurrences_append]

lemma cntOf_nil (k : String) : cntOf [] k = 0 := rfl

lemma cntOf_cons (k0 : String) (c : Nat) (rest : List (String × Nat)) (k2 : String) :
    cntOf ((k0, c) :: rest) k2 = if k0 = k2 then c else cntOf rest k2 := by
  by_cases h : k0 = k2
  · simp only [cntOf]
    rw [List.find?_cons_of_pos _ (by simp [h])]
    simp [h]
  · simp only [cntOf]
    rw [List.find?_cons_of_neg _ (by simp [h])]
    simp [h]

lemma cntOf_bump (k k2 : String) :
    ∀ acc : List (String × Nat),
      cntOf (bump acc k) k2 = cntOf acc k2 + (if k2 = k then 1 else 0) := by
  intro acc
  induction acc with
  | nil =>
      by_cases h : k2 = k
      · simp [bump, cntOf_cons, cntOf_nil, h]
      · have h2 : ¬ k = k2 := fun hh => h hh.symm
        simp [bump, cntOf_cons, cntOf_nil, h, h2]
  | cons p rest ih =>
      obtain ⟨k0, c0⟩ := p
      by_cases hk : k0 = k
      · simp only [bump, if_pos (by simp [hk] : (k0 == k) = true)]
        by_cases h2 : k0 = k2
        · have : k2 = k := h2 ▸ hk
          simp [cntOf_cons, h2, this]
        · have : ¬ k2 = k := fun hh => h2 (by rw [hk, ← hh])
          simp [cntOf_cons, h2, this]
      · simp only [bump, if_neg (by simp [hk] : ¬ (k0 == k) = true)]
        by_cases h2 : k0 = k2
        · have : ¬ k2 = k := fun hh => hk (by rw [h2, hh])
          simp [cntOf_cons, h2, this]
        · simp [cntOf_cons, h2, ih]

lemma cntOf_groupCounts (k : String) (ks : List String) :
    cntOf (groupCounts ks) k = ks.count k := by
  induction ks using List.reverseRecOn with
  | nil => rfl
  | append_singleton ks k0 ih =>
      rw [groupCounts_append, cntOf_bump, ih, List.count_append]
      by_cases h : k = k0 <;> simp [List.count_cons, h]

lemma groupCounts_fst_nodup (ks : List String) :
    ((groupCounts ks).map Prod.fst).Nodup := by
  induction ks using List.reverseRecOn with
  | nil => simp [groupCounts]
  | append_singleton ks k ih =>
      rw [groupCounts_append, bump_map_fst]
      by_cases h : k ∈ (groupCounts ks).map Prod.fst
      · simpa [h] using ih
      · simp [h, ih, List.nodup_append]

lemma find?_eq_of_mem_of_nodup :
    ∀ (acc : List (String × Nat)) (k : String) (c : Nat),
      (acc.map Prod.fst).Nodup → (k, c) ∈ acc →
      acc.find? (fun p => p.1 == k) = some (k, c) := by
  intro acc
  induction acc with
  | nil => intro k c _ h; simp at h
  | cons p rest ih =>
      intro k c hnd hmem
      obtain ⟨k0, c0⟩ := p
      rcases List.mem_cons.mp hmem with heq | hmem2
      · cases heq
        exact List.find?_cons_of_pos _ (by simp)
      · simp only [List.map_cons, List.nodup_cons] at hnd
        by_cases hk : k0 = k
        · exfalso
          apply hnd.1
          subst hk
          have : Prod.fst (k0, c) ∈ rest.map Prod.fst := List.mem_map_of_mem _ hmem2
          simpa using this
        · rw [List.find?_cons_of_neg _ (by simp [hk])]
          exact ih k c hnd.2 hmem2

lemma groupCounts_count (ks : List String) (p : String × Nat)
    (hp : p ∈ groupCounts ks) : p.2 = ks.count p.1 := by
  have hnd := groupCounts_fst_nodup ks
  have hf := find?_eq_of_mem_of_nodup (groupCounts ks) p.1 p.2 hnd (by simpa using hp)
  have hc : cntOf (groupCounts ks) p.1 = p.2 := by simp [cntOf, hf]
  rw [← hc, cntOf_groupCounts]

lemma bump_snd_sum (k : String) :
    ∀ acc : List (String × Nat),
      ((bump acc k).map Prod.snd).sum = (acc.map Prod.snd).sum + 1 := by
  intro acc
  induction acc with
  | nil => simp [bump]
  | cons p rest ih =>
      obtain ⟨k0, c0⟩ := p
      by_cases hk : k0 = k <;> simp [bump, hk, ih] <;> omega

lemma groupCounts_snd_sum (ks : List String) :
    ((groupCounts ks).map Prod.snd).sum = ks.length := by
  induction ks using List.reverseRecOn with
  | nil => rfl
  | append_singleton ks k ih =>
      rw [groupCounts_append, bump_snd_sum, ih]
      simp

lemma abs_round1_sub_le (q : ℚ) : |round1 q - q| ≤ 1/20 := by
  have h1 : (Int.floor (q * 10 + 1/2) : ℚ) ≤ q * 10 + 1/2 := Int.floor_le _
  have h2 : q * 10 + 1/2 - 1 < (Int.floor (q * 10 + 1/2) : ℚ) := Int.sub_one_lt_floor _
  simp only [round1]
  rw [abs_le]
  constructor <;> linarith

lemma abs_sum_sub_le {α : Type} (f g : α → ℚ) (ε : ℚ) :
    ∀ l : List α, (∀ x ∈ l, |f x - g x| ≤ ε) →
      |(l.map f).sum - (l.map g).sum| ≤ l.length * ε := by
  intro l
  induction l with
  | nil => intro _; simp
  | cons x xs ih =>
      intro h
      have hx := h x (List.mem_cons_self _ _)
      have hxs := ih (fun y hy => h y (List.mem_cons_of_mem _ hy))
      simp only [List.map_cons, List.sum_cons, List.length_cons]
      have hsplit : (f x + (xs.map f).sum) - (g x + (xs.map g).sum)
          = (f x - g x) + ((xs.map f).sum - (xs.map g).sum) := by ring
      rw [hsplit]
      have habs := abs_add (f x - g x) ((xs.map f).sum - (xs.map g).sum)
      have hcast : ((xs.length + 1 : ℕ) : ℚ) * ε = (xs.length : ℚ) * ε + ε := by
        push_cast
        ring
      rw [hcast]
      linarith

lemma map_ratio_sum (n : Nat) (hn : n ≠ 0) :
    ∀ stats : List (String × Nat),
      (stats.map Prod.snd).sum = n →
      (stats.map (fun p => ((p.2 : ℚ) / (n : ℚ)) * 100)).sum = 100 := by
  have key : ∀ l : List (String × Nat),
      (l.map (fun p => ((p.2 : ℚ) / (n : ℚ)) * 100)).sum
        = (((l.map Prod.snd).sum : ℕ) : ℚ) / (n : ℚ) * 100 := by
    intro l
    induction l with
    | nil => simp
    | cons p rest ih =>
        simp only [List.map_cons, List.sum_cons, ih]
        push_cast
        ring
  intro stats hsum
  rw [key, hsum]
  have hn2 : (n : ℚ) ≠ 0 := Nat.cast_ne_zero.mpr hn
  field_simp

lemma chartOf_sum_within (keyF : Violation → String) (vs : List Violation)
    (hvs : vs ≠ []) :
    |((chartOf keyF vs).map (fun e => e.2.2)).sum - 100|
      ≤ ((chartOf keyF vs).length : ℚ) * (1/10) := by
  have hn : vs.length ≠ 0 := by simpa [List.length_eq_zero] using hvs
  have hsum : ((groupCounts (vs.map keyF)).map Prod.snd).sum = vs.length := by
    rw [groupCounts_snd_sum, List.length_map]
  have htrue := map_ratio_sum vs.length hn (groupCounts (vs.map keyF)) hsum
  have hmaps : (chartOf keyF vs).map (fun e => e.2.2)
      = (groupCounts (vs.map keyF)).map (fun p => chartPercent vs.length p.2) := by
    simp [chartOf, List.map_map, Function.comp]
  have hlen : (chartOf keyF vs).length = (groupCounts (vs.map keyF)).length := by
    simp [chartOf]
  have hb := abs_sum_sub_le (fun p : String × Nat => chartPercent vs.length p.2)
      (fun p : String × Nat => ((p.2 : ℚ) / (vs.length : ℚ)) * 100) (1/20)
      (groupCounts (vs.map keyF))
      (fun p _ => abs_round1_sub_le (((p.2 : ℚ) / (vs.length : ℚ)) * 100))
  rw [hmaps, hlen, htrue] at *
  have hfinal : ((groupCounts (vs.map keyF)).length : ℚ) * (1/20)
      ≤ ((groupCounts (vs.map keyF)).length : ℚ) * (1/10) := by
    have : (0:ℚ) ≤ ((groupCounts (vs.map keyF)).length : ℚ) := Nat.cast_nonneg _
    nlinarith
  calc |((groupCounts (vs.map keyF)).map (fun p => chartPercent vs.length p.2)).sum - 100|
      ≤ ((groupCounts (vs.map keyF)).length : ℚ) * (1/20) := by
        rw [← htrue]
        exact hb
    _ ≤ ((groupCounts (vs.map keyF)).length : ℚ) * (1/10) := hfinal

lemma chartOf_props (keyF : Violation → String) (vs : List Violation)
    (hvs : vs ≠ []) :
    ((chartOf keyF vs).map (fun e => e.1)).Nodup ∧
    (chartOf keyF vs).map (fun e => e.1) = firstOccurrences (vs.map keyF) ∧
    (∀ v ∈ vs, keyF v ∈ (chartOf keyF vs).map (fun e => e.1)) ∧
    (∀ e ∈ chartOf keyF vs,
       e.2.1 = (vs.map keyF).count e.1 ∧ e.2.2 = chartPercent vs.length e.2.1) ∧
    |((chartOf keyF vs).map (fun e => e.2.2)).sum - 100|
      ≤ ((chartOf keyF vs).length : ℚ) * (1/10) := by
  have hfst : (chartOf keyF vs).map (fun e => e.1)
      = (groupCounts (vs.map keyF)).map Prod.fst := by
    simp [chartOf, List.map_map, Function.comp]
  refine ⟨?_, ?_, ?_, ?_, chartOf_sum_within keyF vs hvs⟩
  · rw [hfst]
    exact groupCounts_fst_nodup _
  · rw [hfst]
    exact groupCounts_fst_eq _
  · intro v hv
    rw [hfst, groupCounts_fst_eq, mem_firstOccurrences]
    exact List.mem_map_of_mem keyF hv
  · intro e he
    simp only [chartOf, List.mem_map] at he
    obtain ⟨p, hp, hpe⟩ := he
    subst hpe
    exact ⟨groupCounts_count _ p hp, rfl⟩

/-- C8: for every non-empty collection, the by-area and the by-type chart
have one entry per distinct key (keys are distinct and every record's key
appears), each entry carries the key's occurrence count and the percentage
`count / total * 100` rounded half-up to one decimal, entries appear in
insertion order of each key's first occurrence, and the percentages sum to
100 within a tolerance of 0.1 per entry. -/
theorem group_by_charts_correct (vs : List Violation) (hvs : vs ≠ []) :
    (((areaChart vs).map (fun e => e.1)).Nodup ∧
     (areaChart vs).map (fun e => e.1)
        = firstOccurrences (vs.map (fun v => v.area_name)) ∧
     (∀ v ∈ vs, v.area_name ∈ (areaChart vs).map (fun e => e.1)) ∧
     (∀ e ∈ areaChart vs,
        e.2.1 = (vs.map (fun v => v.area_name)).count e.1 ∧
        e.2.2 = chartPercent vs.length e.2.1) ∧
     |((areaChart vs).map (fun e => e.2.2)).sum - 100|
        ≤ ((areaChart vs).length : ℚ) * (1/10)) ∧
    (((typeChart vs).map (fun e => e.1)).Nodup ∧
     (typeChart vs).map (fun e => e.1)
        = firstOccurrences (vs.map (fun v => v.type_name)) ∧
     (∀ v ∈ vs, v.type_name ∈ (typeChart vs).map (fun e => e.1)) ∧
     (∀ e ∈ typeChart vs,
        e.2.1 = (vs.map (fun v => v.type_name)).count e.1 ∧
        e.2.2 = chartPercent vs.length e.2.1) ∧
     |((typeChart vs).map (fun e => e.2.2)).sum - 100|
        ≤ ((typeChart vs).length : ℚ) * (1/10)) :=
  ⟨chartOf_props (fun v => v.area_name) vs hvs,
   chartOf_props (fun v => v.type_name) vs hvs⟩

/-- C8 witness: the chart properties hold on the non-empty mock
collection. -/
theorem group_by_charts_correct_witness :
    mockState.violations ≠ [] ∧
    |((areaChart mockState.violations).map (fun e => e.2.2)).sum - 100|
      ≤ ((areaChart mockState.violations).length : ℚ) * (1/10) :=
  ⟨by simp [mockState],
   (group_by_charts_correct mockState.violations (by simp [mockState])).1.2.2.2.2⟩

/-- C10 witness: the scenario registration stores `KA05XY9999` (upper case
of the form's `ka05xy9999`) as the first element of the collection. -/
theorem registerViolation_uppercase_front_witness :
    ((registerViolation mockState mockTypes mockAreas scenarioForm).1).violations
        = newViolationOf mockState mockTypes mockAreas scenarioForm :: mockState.violations ∧
    (newViolationOf mockState mockTypes mockAreas scenarioForm).vehicle_number
        = jsToUpper scenarioForm.vehicle_number ∧
    ((registerViolation mockState mockTypes mockAreas scenarioForm).1).violations.head?
        = some (newViolationOf mockState mockTypes mockAreas scenarioForm) :=
  registerViolation_uppercase_front mockState mockTypes mockAreas scenarioForm rfl

end TVMS
